import Mathlib

/-!
Shallow embedding of the oracle aggregation and stabilization core of
bazinga-core (`src/models/ai_model.py` and `src/stablecoin/oracle.py`).

Prices are modelled as exact rationals (ℚ).  The opaque machine-learning
predictor (the LSTM `classical_model` and the quantum optimizer) is modelled
by its outputs, passed in as explicit parameters or functions: the code
treats it as a black box whose result is post-processed by `np.clip`.
A per-source fetch outcome is `Option ℚ`: `none` when the HTTP request or
response parsing raised an exception (the `except` branch of the loop in
`fetch_price_feeds`), `some p` when a price value `p` was extracted from
the response (`p` may be `0` — the `.get(..., 0)` defaults — or negative).
Fallible operations return `Except`.
-/

namespace Bazinga

/-- `np.clip(x, lo, hi)`: `x` clamped into `[lo, hi]`
(`ai_model.py` line 108). -/
def clip (x lo hi : ℚ) : ℚ := min (max x lo) hi

/-- `QuantumAIStabilizer.predict_volatility` (`ai_model.py` lines 89-108),
with the opaque model outputs as parameters: `classical_pred` is the LSTM
output, `quantum` is `some q` when the quantum job returned adjustment `q`
and `none` when quantum is disabled or the quantum prediction raised (both
paths use `final_pred = classical_pred`).  The fusion weights are the
source's `0.7` and `0.3`; the result is clipped into `[0, 1]`. -/
def predict_volatility (classical_pred : ℚ) (quantum : Option ℚ) : ℚ :=
  let final_pred : ℚ :=
    match quantum with
    | some quantum_adjustment => (7/10) * classical_pred + (3/10) * quantum_adjustment
    | none => classical_pred
  clip final_pred 0 1

/-- The three stabilization actions of `suggest_stabilization`. -/
inductive Action where
  | mint
  | burn
  | hold
deriving DecidableEq

/-- The dict returned by `suggest_stabilization`
(`ai_model.py` line 124). -/
structure Recommendation where
  action : Action
  amount : ℚ
  volatility_score : ℚ
deriving DecidableEq

/-- `QuantumAIStabilizer.suggest_stabilization` (`ai_model.py` lines
110-124).  In the source, `volatility` is `predict_volatility(dummy_data)`
where `dummy_data = np.random.rand(30)` is redrawn at random on every call;
here that per-call draw enters as the explicit parameter `volatility`.
Thresholds `0.5` and `0.02` and the scale factor `1000` are the source's
literals (`1/2` and `1/50` as exact rationals). -/
def suggest_stabilization (volatility current_price target_peg : ℚ) :
    Recommendation :=
  if volatility > 1/2 ∨ |current_price - target_peg| > 1/50 then
    { action := if current_price > target_peg then Action.burn else Action.mint,
      amount := |current_price - target_peg| * 1000,
      volatility_score := volatility }
  else
    { action := Action.hold, amount := 0, volatility_score := volatility }

/-- Idealized model of a Dilithium signature
(`oracle.py` line 55, `self.quantum_key.sign(data_to_sign)`): the signature
determines the signing key and the signed message. -/
structure Signature where
  key : Nat
  message : String
deriving DecidableEq

/-- Signing with private key `k` (`quantum_key.sign` in `oracle.py`). -/
def sign (k : Nat) (m : String) : Signature := ⟨k, m⟩

/-- The public key corresponding to private key `k` (idealized). -/
def pubkey (k : Nat) : Nat := k

/-- Modelled from the spec: signature verification for the injected signing
capability.  No verification call appears under `src/`; the spec requires
that a signature verifies against the signed message with the corresponding
public key, which this idealized checker realizes. -/
def verify (pk : Nat) (m : String) (s : Signature) : Bool :=
  s.key == pk && s.message == m

/-- Insert `x` into an ascending list, keeping it ascending. -/
def insertSorted (x : ℚ) : List ℚ → List ℚ
  | [] => [x]
  | y :: ys => if x ≤ y then x :: y :: ys else y :: insertSorted x ys

/-- Ascending insertion sort (the sort inside `np.median`). -/
def sortAsc (xs : List ℚ) : List ℚ := xs.foldr insertSorted []

/-- `np.median` (`oracle.py` line 44): sort ascending; odd length takes the
middle element, even length averages the two middle elements. -/
def median (xs : List ℚ) : ℚ :=
  let s := sortAsc xs
  let n := s.length
  if n % 2 = 1 then s.getD (n / 2) 0
  else (s.getD (n / 2 - 1) 0 + s.getD (n / 2) 0) / 2

/-- Python slice `prices[-30:]` generalized to the window size `n`. -/
def takeLast (n : Nat) (xs : List ℚ) : List ℚ := xs.drop (xs.length - n)

/-- `np.pad(xs, (n - len(xs), 0), 'edge')`: prepend copies of the first
element until the length reaches `n` (identity on `[]` and on lists of
length ≥ `n`). -/
def edgePadFront (n : Nat) (xs : List ℚ) : List ℚ :=
  match xs with
  | [] => []
  | x :: _ => List.replicate (n - xs.length) x ++ xs

/-- `historical_data` in `fetch_price_feeds` (`oracle.py` lines 47-49): the
current call's collected prices, last 30, front-padded with the first
element to length 30. -/
def historical_input (prices : List ℚ) : List ℚ :=
  edgePadFront 30 (takeLast 30 prices)

/-- Error outcomes of `fetch_price_feeds`: `noFeed` is the
`ValueError("No valid price feeds available")` raised at `oracle.py` line
41; `predictorFailure` is an uncaught exception escaping from
`predict_volatility` (there is no `try` around the call at line 50). -/
inductive OracleError where
  | noFeed
  | predictorFailure
deriving DecidableEq

/-- The consensus state after the aggregation phase of `fetch_price_feeds`
(`oracle.py` lines 27-44): the collected `prices` list and its median. -/
structure ConsensusResult where
  prices : List ℚ
  median_price : ℚ
deriving DecidableEq

/-- The aggregation phase of `fetch_price_feeds` (`oracle.py` lines 27-44):
for each configured source, a raised exception is swallowed (`none`), and
any extracted price (`some p`, including the `0` defaults for malformed
responses) is appended to `prices`; if `prices` is empty a `ValueError` is
raised, otherwise the median of `prices` is the consensus. -/
def aggregate (fetchResults : List (Option ℚ)) :
    Except OracleError ConsensusResult :=
  if (fetchResults.filterMap id).isEmpty then Except.error OracleError.noFeed
  else Except.ok { prices := fetchResults.filterMap id,
                   median_price := median (fetchResults.filterMap id) }

/-- `data_to_sign` (`oracle.py` line 54): the f-string
`asset:predicted_price:predicted_volatility` — exactly these three fields,
in this order, colon-separated. -/
def canonical_encode (asset : String) (predicted_price : ℚ)
    (predicted_volatility : ℚ) : String :=
  asset ++ ":" ++ toString predicted_price ++ ":" ++ toString predicted_volatility

/-- The dict returned by `fetch_price_feeds` (`oracle.py` lines 57-65). -/
structure Feed where
  asset : String
  median_price : ℚ
  predicted_price : ℚ
  volatility_score : ℚ
  sources_used : Nat
  quantum_signature : Signature
  timestamp : String
deriving DecidableEq

/-- `HyperTechOracle.fetch_price_feeds` (`oracle.py` lines 26-65).
`fetchResults` is the per-source fetch outcome; `classical_model` and
`quantum_model` are the opaque predictor stages applied to
`historical_data` (the classical LSTM may raise, `Except.error`; the
quantum stage yields `none` when disabled or when it raised);
`key` is `self.quantum_key` and `timestamp` the wall-clock timestamp. -/
def fetch_price_feeds (asset : String) (fetchResults : List (Option ℚ))
    (classical_model : List ℚ → Except Unit ℚ)
    (quantum_model : List ℚ → Option ℚ)
    (key : Nat) (timestamp : String) : Except OracleError Feed :=
  match aggregate fetchResults with
  | Except.error e => Except.error e
  | Except.ok c =>
    let historical_data := historical_input c.prices
    match classical_model historical_data with
    | Except.error _ => Except.error OracleError.predictorFailure
    | Except.ok classical_pred =>
      let predicted_volatility :=
        predict_volatility classical_pred (quantum_model historical_data)
      let predicted_price := c.median_price * (1 + predicted_volatility * (1/100))
      Except.ok
        { asset := asset,
          median_price := c.median_price,
          predicted_price := predicted_price,
          volatility_score := predicted_volatility,
          sources_used := c.prices.length,
          quantum_signature :=
            sign key (canonical_encode asset predicted_price predicted_volatility),
          timestamp := timestamp }

/-! ### Helper lemmas -/

lemma clip_unit_nonneg (x : ℚ) : 0 ≤ clip x 0 1 :=
  le_min (le_max_right x 0) zero_le_one

lemma clip_unit_le_one (x : ℚ) : clip x 0 1 ≤ 1 :=
  min_le_right _ _

lemma predict_volatility_nonneg (cp : ℚ) (q : Option ℚ) :
    0 ≤ predict_volatility cp q := clip_unit_nonneg _

lemma predict_volatility_le_one (cp : ℚ) (q : Option ℚ) :
    predict_volatility cp q ≤ 1 := clip_unit_le_one _

lemma aggregate_ok {fr : List (Option ℚ)} {c : ConsensusResult}
    (h : aggregate fr = Except.ok c) :
    c.prices = fr.filterMap id ∧ c.prices ≠ [] ∧
      c.median_price = median (fr.filterMap id) := by
  unfold aggregate at h
  by_cases he : (fr.filterMap id).isEmpty
  · simp [he] at h
  · simp [he] at h
    rw [← h]
    exact ⟨rfl, by simpa [List.isEmpty_iff] using he, rfl⟩

lemma aggregate_of_ne_nil {fr : List (Option ℚ)} (h : fr.filterMap id ≠ []) :
    aggregate fr =
      Except.ok { prices := fr.filterMap id,
                  median_price := median (fr.filterMap id) } := by
  unfold aggregate
  simp [List.isEmpty_iff, h]

lemma aggregate_error {fr : List (Option ℚ)} {e : OracleError}
    (h : aggregate fr = Except.error e) :
    e = OracleError.noFeed ∧ fr.filterMap id = [] := by
  unfold aggregate at h
  by_cases he : (fr.filterMap id).isEmpty
  · simp [he] at h
    exact ⟨h.symm, List.isEmpty_iff.mp he⟩
  · simp [he] at h

/-- Shape of any successful `fetch_price_feeds` call: the aggregation
succeeded, the classical predictor returned a value on the padded history
window, and every field of the feed is determined by those outcomes. -/
lemma fetch_price_feeds_ok {asset : String} {fr : List (Option ℚ)}
    {cm : List ℚ → Except Unit ℚ} {qm : List ℚ → Option ℚ} {k : Nat}
    {ts : String} {feed : Feed}
    (h : fetch_price_feeds asset fr cm qm k ts = Except.ok feed) :
    ∃ c cp, aggregate fr = Except.ok c ∧
      cm (historical_input c.prices) = Except.ok cp ∧
      feed =
        { asset := asset,
          median_price := c.median_price,
          predicted_price := c.median_price *
            (1 + predict_volatility cp (qm (historical_input c.prices)) * (1/100)),
          volatility_score :=
            predict_volatility cp (qm (historical_input c.prices)),
          sources_used := c.prices.length,
          quantum_signature := sign k (canonical_encode asset
            (c.median_price *
              (1 + predict_volatility cp (qm (historical_input c.prices)) * (1/100)))
            (predict_volatility cp (qm (historical_input c.prices)))),
          timestamp := ts } := by
  unfold fetch_price_feeds at h
  split at h
  · exact absurd h (by simp)
  · rename_i c hagg
    dsimp only at h
    split at h
    · exact absurd h (by simp)
    · rename_i cp hcm
      refine ⟨c, cp, hagg, hcm, ?_⟩
      simpa using h.symm

/-! ### Claims about the stabilization decision -/

/-- C1: `suggest_stabilization` computes `deviation = |current - peg|`;
when `volatility > 1/2` or `deviation > 1/50` the action is `burn` if the
price is above the peg and `mint` otherwise with `amount = deviation *
1000`; otherwise the action is `hold` with amount `0`; in particular at
`current = peg` with high volatility the action is `mint` with amount 0. -/
theorem C1_recommend_cases (v p t : ℚ) :
    ((v > 1/2 ∨ |p - t| > 1/50) →
      (suggest_stabilization v p t).action =
        (if p > t then Action.burn else Action.mint) ∧
      (suggest_stabilization v p t).amount = |p - t| * 1000) ∧
    (¬(v > 1/2 ∨ |p - t| > 1/50) →
      (suggest_stabilization v p t).action = Action.hold ∧
      (suggest_stabilization v p t).amount = 0) ∧
    (p = t → v > 1/2 →
      (suggest_stabilization v p t).action = Action.mint ∧
      (suggest_stabilization v p t).amount = 0) := by
  refine ⟨?_, ?_, ?_⟩
  · intro h
    unfold suggest_stabilization
    rw [if_pos h]
    exact ⟨rfl, rfl⟩
  · intro h
    unfold suggest_stabilization
    rw [if_neg h]
    exact ⟨rfl, rfl⟩
  · intro hpt hv
    have h : v > 1/2 ∨ |p - t| > 1/50 := Or.inl hv
    unfold suggest_stabilization
    rw [if_pos h]
    subst hpt
    constructor
    · simp
    · simp

/-- Witness for C1 at `volatility = 3/5`, `current = peg = 1`. -/
theorem C1_recommend_cases_witness :
    (suggest_stabilization (3/5) 1 1).action = Action.mint ∧
    (suggest_stabilization (3/5) 1 1).amount = 0 :=
  (C1_recommend_cases (3/5) 1 1).2.2 rfl (by norm_num)

/-- C8 counterexample: two calls with the same `current_price = 1` and
`target_peg = 1` but different per-call random draws (model outputs `3/5`
and `0` fed through `predict_volatility`) return different
recommendations, so `suggest_stabilization` is not determined by the price
arguments alone. -/
theorem C8_counterexample :
    suggest_stabilization (predict_volatility (3/5) none) 1 1 ≠
      suggest_stabilization (predict_volatility 0 none) 1 1 := by
  have h1 : predict_volatility (3/5) none = 3/5 := by
    simp [predict_volatility, clip]
    norm_num
  have h2 : predict_volatility 0 none = 0 := by
    simp [predict_volatility, clip]
  rw [h1, h2]
  intro h
  have := congrArg Recommendation.volatility_score h
  simp [suggest_stabilization] at this
  norm_num at this

/-- C8 amended: the recommendation is a pure function of
`(volatility, current_price, target_peg)`, and the action and amount
depend on the per-call volatility draw only through the threshold test
`volatility > 1/2`. -/
theorem C8_deterministic_given_volatility (v₁ v₂ p t : ℚ)
    (hv : v₁ > 1/2 ↔ v₂ > 1/2) :
    (suggest_stabilization v₁ p t).action =
      (suggest_stabilization v₂ p t).action ∧
    (suggest_stabilization v₁ p t).amount =
      (suggest_stabilization v₂ p t).amount := by
  have hcond : (v₁ > 1/2 ∨ |p - t| > 1/50) ↔ (v₂ > 1/2 ∨ |p - t| > 1/50) :=
    or_congr hv Iff.rfl
  by_cases h : v₁ > 1/2 ∨ |p - t| > 1/50
  · unfold suggest_stabilization
    rw [if_pos h, if_pos (hcond.mp h)]
    exact ⟨rfl, rfl⟩
  · unfold suggest_stabilization
    rw [if_neg h, if_neg (fun hc => h (hcond.mpr hc))]
    exact ⟨rfl, rfl⟩

/-- Witness for the amended C8 at draws `1` and `3/5` (both above the
threshold), `current = 0`, `peg = 1`. -/
theorem C8_deterministic_given_volatility_witness :
    (suggest_stabilization 1 0 1).action =
      (suggest_stabilization (3/5) 0 1).action ∧
    (suggest_stabilization 1 0 1).amount =
      (suggest_stabilization (3/5) 0 1).amount :=
  C8_deterministic_given_volatility 1 (3/5) 0 1 (by norm_num)

/-! ### Claims about aggregation and the attested feed -/

/-- C4: aggregation fails iff zero sources yielded a price, and the
`No valid price feeds available` error is the only error aggregation can
produce; with at least one collected price a consensus result is
produced. -/
theorem C4_no_feed_available (fr : List (Option ℚ)) :
    (aggregate fr = Except.error OracleError.noFeed ↔ fr.filterMap id = []) ∧
    (fr.filterMap id ≠ [] → ∃ c, aggregate fr = Except.ok c) ∧
    (∀ e, aggregate fr = Except.error e → e = OracleError.noFeed) := by
  refine ⟨⟨fun h => (aggregate_error h).2, fun h => ?_⟩,
    fun h => ⟨_, aggregate_of_ne_nil h⟩,
    fun e he => (aggregate_error he).1⟩
  unfold aggregate
  rw [h]
  rfl

/-- Witness for C4: one all-failed source list errors, one successful
source list aggregates. -/
theorem C4_no_feed_available_witness :
    aggregate [none] = Except.error OracleError.noFeed ∧
    ∃ c, aggregate [some 5] = Except.ok c :=
  ⟨(C4_no_feed_available [none]).1.mpr (by simp),
   (C4_no_feed_available [some 5]).2.1 (by simp)⟩

/-- C2 amended: the consensus is computed from every successfully fetched
quote — including zero or negative extracted prices — and only sources
whose fetch raised are excluded; the collected list is nonempty on
success. -/
theorem C2_all_extracted_quotes_used (fr : List (Option ℚ))
    (c : ConsensusResult) (h : aggregate fr = Except.ok c) :
    c.prices = fr.filterMap id ∧ c.prices ≠ [] ∧
      c.median_price = median (fr.filterMap id) :=
  aggregate_ok h

/-- C5: every feed returned by a successful `fetch_price_feeds` call has a
volatility score in `[0, 1]` and a predicted price equal to
`median * (1 + volatility * 1/100)`, so the adjustment is bounded by
`1/100` of the magnitude of the median price. -/
theorem C5_adjustment_bounded (asset : String) (fr : List (Option ℚ))
    (cm : List ℚ → Except Unit ℚ) (qm : List ℚ → Option ℚ) (k : Nat)
    (ts : String) (feed : Feed)
    (h : fetch_price_feeds asset fr cm qm k ts = Except.ok feed) :
    0 ≤ feed.volatility_score ∧ feed.volatility_score ≤ 1 ∧
    feed.predicted_price =
      feed.median_price * (1 + feed.volatility_score * (1/100)) ∧
    |feed.predicted_price - feed.median_price| ≤
      |feed.median_price| * (1/100) := by
  obtain ⟨c, cp, hagg, hcm, rfl⟩ := fetch_price_feeds_ok h
  refine ⟨predict_volatility_nonneg _ _, predict_volatility_le_one _ _, rfl, ?_⟩
  dsimp only
  have h0 : (0:ℚ) ≤ predict_volatility cp (qm (historical_input c.prices)) :=
    predict_volatility_nonneg _ _
  have h1 : predict_volatility cp (qm (historical_input c.prices)) ≤ 1 :=
    predict_volatility_le_one _ _
  have hring : c.median_price *
      (1 + predict_volatility cp (qm (historical_input c.prices)) * (1/100)) -
      c.median_price =
      c.median_price *
        (predict_volatility cp (qm (historical_input c.prices)) * (1/100)) := by
    ring
  rw [hring, abs_mul,
    abs_of_nonneg (mul_nonneg h0 (by norm_num : (0:ℚ) ≤ 1/100))]
  apply mul_le_mul_of_nonneg_left _ (abs_nonneg _)
  calc predict_volatility cp (qm (historical_input c.prices)) * (1/100)
      ≤ 1 * (1/100) :=
        mul_le_mul_of_nonneg_right h1 (by norm_num)
    _ = 1/100 := by ring

/-- C6: the signature of every successfully returned feed is produced over
exactly the canonical colon-separated encoding of
`(asset, predicted price, volatility score)` — no other feed field enters
the signed payload — and it verifies against that encoding under the
corresponding public key. -/
theorem C6_signature_covers_triple (asset : String) (fr : List (Option ℚ))
    (cm : List ℚ → Except Unit ℚ) (qm : List ℚ → Option ℚ) (k : Nat)
    (ts : String) (feed : Feed)
    (h : fetch_price_feeds asset fr cm qm k ts = Except.ok feed) :
    feed.quantum_signature =
      sign k (canonical_encode asset feed.predicted_price
        feed.volatility_score) ∧
    verify (pubkey k)
      (canonical_encode asset feed.predicted_price feed.volatility_score)
      feed.quantum_signature = true := by
  obtain ⟨c, cp, hagg, hcm, rfl⟩ := fetch_price_feeds_ok h
  exact ⟨rfl, by simp [verify, sign, pubkey]⟩

/-- C10: the `sources_used` field of every successfully returned feed is
the number of prices actually collected from the configured sources: it
equals the number of successful fetch outcomes, is at least 1, and is at
most the number of configured sources. -/
theorem C10_sources_used_provenance (asset : String) (fr : List (Option ℚ))
    (cm : List ℚ → Except Unit ℚ) (qm : List ℚ → Option ℚ) (k : Nat)
    (ts : String) (feed : Feed)
    (h : fetch_price_feeds asset fr cm qm k ts = Except.ok feed) :
    feed.sources_used = (fr.filterMap id).length ∧
    1 ≤ feed.sources_used ∧ feed.sources_used ≤ fr.length := by
  obtain ⟨c, cp, hagg, hcm, rfl⟩ := fetch_price_feeds_ok h
  obtain ⟨hp, hne, -⟩ := aggregate_ok hagg
  dsimp only
  refine ⟨by rw [hp], ?_, ?_⟩
  · exact Nat.one_le_iff_ne_zero.mpr
      (fun h0 => hne (List.length_eq_zero.mp h0))
  · rw [hp]
    exact List.length_filterMap_le _ _

/-- C3 amended: a failure of the quantum stage alone is caught inside
`predict_volatility` (the score falls back to the clipped classical
prediction, not to 0) and a feed is still returned; a failure of the
classical predictor call itself is not caught anywhere in
`fetch_price_feeds` and propagates as an error instead of a feed with
volatility 0. -/
theorem C3_predictor_failure_propagates (asset : String)
    (fr : List (Option ℚ)) (cp : ℚ) (k : Nat) (ts : String)
    (hfr : fr.filterMap id ≠ []) :
    (∃ feed, fetch_price_feeds asset fr (fun _ => Except.ok cp)
        (fun _ => none) k ts = Except.ok feed ∧
      feed.volatility_score = clip cp 0 1) ∧
    fetch_price_feeds asset fr (fun _ => Except.error ())
        (fun _ => none) k ts =
      Except.error OracleError.predictorFailure := by
  constructor
  · unfold fetch_price_feeds
    rw [aggregate_of_ne_nil hfr]
    exact ⟨_, rfl, rfl⟩
  · unfold fetch_price_feeds
    rw [aggregate_of_ne_nil hfr]

/-- Witness for the amended C3 with one successful source. -/
theorem C3_predictor_failure_propagates_witness :
    (∃ feed, fetch_price_feeds "btc" [some 5] (fun _ => Except.ok (1/2))
        (fun _ => none) 0 "t" = Except.ok feed ∧
      feed.volatility_score = clip (1/2) 0 1) ∧
    fetch_price_feeds "btc" [some 5] (fun _ => Except.error ())
        (fun _ => none) 0 "t" =
      Except.error OracleError.predictorFailure :=
  C3_predictor_failure_propagates "btc" [some 5] (1/2) 0 "t" (by simp)

/-- C7 amended: `fetch_price_feeds` keeps no price history; the predictor
stages are consulted exactly at the current call's collected prices,
edge-padded at the front to the 30-element window, and the call's result
depends on the predictor stages only through their values at that
input. -/
theorem C7_predictor_input_is_current_quotes (asset : String)
    (fr : List (Option ℚ)) (cm₁ cm₂ : List ℚ → Except Unit ℚ)
    (qm₁ qm₂ : List ℚ → Option ℚ) (k : Nat) (ts : String)
    (hcm : cm₁ (historical_input (fr.filterMap id)) =
      cm₂ (historical_input (fr.filterMap id)))
    (hqm : qm₁ (historical_input (fr.filterMap id)) =
      qm₂ (historical_input (fr.filterMap id))) :
    fetch_price_feeds asset fr cm₁ qm₁ k ts =
      fetch_price_feeds asset fr cm₂ qm₂ k ts := by
  unfold fetch_price_feeds
  cases hagg : aggregate fr with
  | error e => rfl
  | ok c =>
    obtain ⟨hp, -, -⟩ := aggregate_ok hagg
    dsimp only
    rw [hp, hcm, hqm]

/-- Witness for the amended C7: two syntactically different but
pointwise-agreeing classical models give identical feeds. -/
theorem C7_predictor_input_is_current_quotes_witness :
    fetch_price_feeds "btc" [some 5] (fun _ => Except.ok (1/2))
        (fun _ => none) 0 "t" =
      fetch_price_feeds "btc" [some 5] (fun _ => Except.ok (1/2 * 1))
        (fun _ => none) 0 "t" :=
  C7_predictor_input_is_current_quotes "btc" [some 5] _ _ _ _ 0 "t"
    (by norm_num) rfl

/-- C2 counterexample: a source whose malformed response yields the
default extracted price `0` still contributes to the consensus — the
aggregation of outcomes `[some 0, some 100]` uses both quotes and returns
median `50`, whereas the median of the single positive quote alone would
be `100`. -/
theorem C2_counterexample :
    aggregate [some 0, some 100] =
      Except.ok { prices := [0, 100], median_price := 50 } ∧
    median [(100:ℚ)] = 100 := by
  constructor
  · rw [aggregate_of_ne_nil (by simp)]
    simp [median, sortAsc, insertSorted]
    norm_num
  · simp [median, sortAsc, insertSorted]

/-- Witness for the amended C2 at outcomes `[some 0, some 100]`. -/
theorem C2_all_extracted_quotes_used_witness :
    ({ prices := [0, 100], median_price := 50 } : ConsensusResult).prices =
      ([some 0, some 100] : List (Option ℚ)).filterMap id ∧
    ({ prices := [0, 100], median_price := 50 } : ConsensusResult).prices ≠
      [] ∧
    ({ prices := [0, 100], median_price := 50 } :
      ConsensusResult).median_price =
      median (([some 0, some 100] : List (Option ℚ)).filterMap id) :=
  C2_all_extracted_quotes_used [some 0, some 100] _
    (by rw [aggregate_of_ne_nil (by simp)]
        simp [median, sortAsc, insertSorted]
        norm_num)

/-- C3 counterexample: with one successful source and a predictor call
that throws, `fetch_price_feeds` propagates the failure as an error
instead of returning a feed with volatility score 0. -/
theorem C3_counterexample :
    fetch_price_feeds "bitcoin" [some 100] (fun _ => Except.error ())
        (fun _ => none) 0 "t" =
      Except.error OracleError.predictorFailure := by
  unfold fetch_price_feeds
  rw [aggregate_of_ne_nil (by simp)]

/-- C7 counterexample: on two calls with identical (empty) past-consensus
history, the predictor input is the current call's raw quotes, edge-padded
to the 30-element window: a classical model that returns 1 exactly when
the raw quote `7` is in its input sees `7` on the call with quotes
`[5, 7]` (volatility 1) and not on the call with quotes `[2, 2]`
(volatility 0), so the predictor input is determined by the current raw
quotes and not by any stored history of past consensus prices. -/
theorem C7_counterexample :
    historical_input [5, 7] = List.replicate 28 5 ++ [5, 7] ∧
    (fetch_price_feeds "btc" [some 5, some 7]
        (fun h => Except.ok (if (7:ℚ) ∈ h then 1 else 0)) (fun _ => none) 0
        "t").toOption.map Feed.volatility_score = some 1 ∧
    (fetch_price_feeds "btc" [some 2, some 2]
        (fun h => Except.ok (if (7:ℚ) ∈ h then 1 else 0)) (fun _ => none) 0
        "t").toOption.map Feed.volatility_score = some 0 := by
  refine ⟨by simp [historical_input, takeLast, edgePadFront], ?_, ?_⟩
  · unfold fetch_price_feeds
    rw [aggregate_of_ne_nil (by simp)]
    simp [historical_input, takeLast, edgePadFront, List.mem_replicate,
      predict_volatility, clip]
    norm_num
    exact ⟨_, rfl, rfl⟩
  · unfold fetch_price_feeds
    rw [aggregate_of_ne_nil (by simp)]
    simp [historical_input, takeLast, edgePadFront, List.mem_replicate,
      predict_volatility, clip]
    exact ⟨_, rfl, rfl⟩

/-- A concrete successful call used by the witnesses below: one source
quoting `5`, classical prediction `1/2`, quantum stage disabled. -/
def feedExample : Feed :=
  { asset := "btc", median_price := 5, predicted_price := 201/40,
    volatility_score := 1/2, sources_used := 1,
    quantum_signature := sign 0 (canonical_encode "btc" (201/40) (1/2)),
    timestamp := "t" }

lemma fetch_feedExample :
    fetch_price_feeds "btc" [some 5] (fun _ => Except.ok (1/2))
      (fun _ => none) 0 "t" = Except.ok feedExample := by
  unfold fetch_price_feeds
  rw [aggregate_of_ne_nil (by simp)]
  simp [feedExample, median, sortAsc, insertSorted, predict_volatility, clip]
  norm_num

/-- Witness for C5 at the concrete successful call `fetch_feedExample`. -/
theorem C5_adjustment_bounded_witness :
    0 ≤ feedExample.volatility_score ∧ feedExample.volatility_score ≤ 1 ∧
    feedExample.predicted_price =
      feedExample.median_price * (1 + feedExample.volatility_score * (1/100)) ∧
    |feedExample.predicted_price - feedExample.median_price| ≤
      |feedExample.median_price| * (1/100) :=
  C5_adjustment_bounded "btc" [some 5] (fun _ => Except.ok (1/2))
    (fun _ => none) 0 "t" feedExample fetch_feedExample

/-- Witness for C6 at the concrete successful call `fetch_feedExample`. -/
theorem C6_signature_covers_triple_witness :
    feedExample.quantum_signature =
      sign 0 (canonical_encode "btc" feedExample.predicted_price
        feedExample.volatility_score) ∧
    verify (pubkey 0)
      (canonical_encode "btc" feedExample.predicted_price
        feedExample.volatility_score)
      feedExample.quantum_signature = true :=
  C6_signature_covers_triple "btc" [some 5] (fun _ => Except.ok (1/2))
    (fun _ => none) 0 "t" feedExample fetch_feedExample

/-- Witness for C10 at the concrete successful call `fetch_feedExample`. -/
theorem C10_sources_used_provenance_witness :
    feedExample.sources_used =
      (([some 5] : List (Option ℚ)).filterMap id).length ∧
    1 ≤ feedExample.sources_used ∧
    feedExample.sources_used ≤ ([some (5:ℚ)] : List (Option ℚ)).length :=
  C10_sources_used_provenance "btc" [some 5] (fun _ => Except.ok (1/2))
    (fun _ => none) 0 "t" feedExample fetch_feedExample

end Bazinga
